import Mathlib

/-!
Verification of the FactFlow fact-checking service.

This file gives a shallow embedding of the parts of the FactFlow repository
that the checked properties are about:

* `src/app/models.py` — the `Source`, `Evidence` and `CheckResponse` pydantic
  models (field validation of `CheckResponse` is modeled by
  `CheckResponse.validB`; the wall-clock `timestamp` field, which plays no
  role in any property below, is omitted).
* `src/app/factchecker.py` — `FactChecker.search_web`, `FactChecker.check_text`
  (the tool-calling orchestration loop), and the `check_image`, `check_pdf`
  and `check_url` wrappers.
* `src/factchecker.py` — the earlier revision of the orchestrator; only its
  final-reply field-defaulting (lines 160–181), where it differs from the
  current revision, is embedded (`finalizeOld`).
* `src/app/database.py` — `Database.get_fact_checks` and
  `Database.delete_fact_check`, with the `fact_checks` table modeled as a
  list of rows.

External services (the OpenAI chat backend, the Tavily search client, the
vision / PDF text extractors) are modeled as injected oracles: arbitrary
functions returning either a value or a raised exception (`Except String`,
the error string standing for `str(e)` of the raised Python exception).
The `while response_message.tool_calls:` loop of `check_text` has no bound
in the source; it is embedded with an explicit `fuel` counting loop
iterations, and a run that is still inside the loop after `fuel` rounds is
reported as `none`.
-/

namespace FactFlow

/-- One citation (src/app/models.py, `class Source`): a title and a url. -/
structure Source where
  title : String
  url : String
deriving DecidableEq

/-- Supporting and counter evidence lists (src/app/models.py, `class Evidence`). -/
structure Evidence where
  supporting : List String
  counter : List String
deriving DecidableEq

/-- The normalized verdict record (src/app/models.py, `class CheckResponse`).
The `timestamp : Optional[datetime]` field is omitted (wall-clock metadata,
unused by every property below). -/
structure CheckResponse where
  verdict : String
  confidence : ℚ
  claim : String
  conclusion : String
  evidence : Evidence
  sources : List Source
deriving DecidableEq

/-- The closed verdict set of the `Literal` type on `CheckResponse.verdict`
(src/app/models.py line 21). -/
def allowedVerdicts : List String := ["TRUE", "FALSE", "UNVERIFIABLE", "ERROR"]

/-- Pydantic field validation performed when a `CheckResponse` is constructed
(src/app/models.py lines 21–22): `verdict` must be one of the four `Literal`
values and `confidence` must satisfy `ge=0.0, le=1.0`. Construction from
values failing these checks raises a `ValidationError`. -/
def CheckResponse.validB (r : CheckResponse) : Bool :=
  (r.verdict == "TRUE" || r.verdict == "FALSE" ||
   r.verdict == "UNVERIFIABLE" || r.verdict == "ERROR")
  && decide (0 ≤ r.confidence) && decide (r.confidence ≤ 1)

/-- A request issued to `tavily_client.search` (src/app/factchecker.py
lines 45–49): the query (possibly `None`, since `args.get("query")` can be
absent) together with the fixed `search_depth` and `max_results` parameters. -/
structure SearchRequest where
  query : Option String
  search_depth : String
  max_results : Nat
deriving DecidableEq

/-- The reply of `tavily_client.search` as consumed by `search_web`
via `response.get("results", [])` and `response.get("answer", "")`; the
result items themselves are opaque to the orchestrator and modeled as
strings. `none` models an absent key. -/
structure TavilyResult where
  results? : Option (List String)
  answer? : Option String
deriving DecidableEq

/-- The value returned by `FactChecker.search_web` (src/app/factchecker.py
lines 50–56): on success a dict with `results` and `answer` keys, on an
internal fault a dict with empty results, empty answer and an `error` key.
`error = none` models the success dict, which carries no `error` key. -/
structure SearchWebResult where
  results : List String
  answer : String
  error : Option String
deriving DecidableEq

/-- `FactChecker.search_web` (src/app/factchecker.py lines 42–56): calls the
injected Tavily client with `search_depth="advanced"`, `max_results=5`,
and catches every exception, converting it into the error-annotated empty
result. -/
def search_web (client : SearchRequest → Except String TavilyResult)
    (query : Option String) : SearchWebResult :=
  match client { query := query, search_depth := "advanced", max_results := 5 } with
  | .ok response =>
      { results := response.results?.getD []
        answer := response.answer?.getD ""
        error := none }
  | .error e => { results := [], answer := "", error := some e }

/-- One source entry of the backend's final JSON reply, read with
`s.get("title", "")` and `s.get("url", "")` (src/app/factchecker.py line 139);
`none` models an absent key. -/
structure RawSource where
  title? : Option String
  url? : Option String
deriving DecidableEq

/-- The backend's final structured reply after `json.loads` succeeded
(src/app/factchecker.py lines 137–148): each field is read with
`result_data.get(key, default)`, so an absent key is modeled as `none`.
`confidence?` holds the rational value of `float(...)` on the field. -/
structure FinalData where
  verdict? : Option String
  confidence? : Option ℚ
  claim? : Option String
  conclusion? : Option String
  evidence? : Option Evidence
  sources? : Option (List RawSource)
  citations? : Option (List RawSource)
deriving DecidableEq

/-- The record assembled from the final parsed reply (src/app/factchecker.py
lines 139–149): `result_data.get("verdict", "UNVERIFIABLE")`,
`float(result_data.get("confidence", 0.0))`, `result_data.get("claim", "")`,
`result_data.get("conclusion", "Unable to verify")`, the evidence default
`{"supporting": [], "counter": []}`, and sources taken from the `sources`
key, falling back to the `citations` key, falling back to `[]`. -/
def buildResponse (fd : FinalData) : CheckResponse :=
  { verdict := fd.verdict?.getD "UNVERIFIABLE"
    confidence := fd.confidence?.getD 0
    claim := fd.claim?.getD ""
    conclusion := fd.conclusion?.getD "Unable to verify"
    evidence := fd.evidence?.getD { supporting := [], counter := [] }
    sources := (fd.sources?.getD (fd.citations?.getD [])).map
      (fun s => { title := s.title?.getD "", url := s.url?.getD "" }) }

/-- Construction of the `CheckResponse` pydantic model from the assembled
fields (src/app/factchecker.py lines 141–149): pydantic validation
(`CheckResponse.validB`) either accepts the record or raises a
`ValidationError`, which the embedding reports as an error string. -/
def finalizeApp (fd : FinalData) : Except String CheckResponse :=
  if (buildResponse fd).validB then .ok (buildResponse fd)
  else .error "1 validation error for CheckResponse"

/-- The catch-all ERROR record built in the `except` clause of `check_text`
(src/app/factchecker.py lines 151–161), with conclusion
`f"Error during fact-checking: {str(e)}"`. -/
def errorResponse (e : String) : CheckResponse :=
  { verdict := "ERROR"
    confidence := 0
    claim := ""
    conclusion := "Error during fact-checking: " ++ e
    evidence := { supporting := [], counter := [] }
    sources := [] }

/-- One tool call requested by the backend. `queryArg` is the outcome of
`json.loads(tool_call.function.arguments)` followed by `.get("query")`
(src/app/factchecker.py lines 96–97): an exception from parsing the
argument string (or from `.get` on a non-dict value), or the optional
query string. -/
structure ToolCall where
  id : String
  name : String
  queryArg : Except String (Option String)

/-- A reply message from the chat completions backend. `toolCalls = []`
models both an absent and an empty `tool_calls` attribute (both falsy in
the `while` condition). `parsed` models the reply content by the outcome
of `json.loads` on it (src/app/factchecker.py line 137); it is only
inspected for the final reply. -/
structure ReplyMessage where
  toolCalls : List ToolCall
  parsed : Except String FinalData

/-- One entry of the `messages` conversation list of `check_text`. A tool
message carries the `json.dumps(results)` payload, kept structurally. -/
inductive Message where
  | system (content : String)
  | user (content : String)
  | assistant (reply : ReplyMessage)
  | tool (tool_call_id : String) (name : String) (content : SearchWebResult)

/-- The chat completions backend as an injected oracle: given whether tools
are offered (`tool_choice="auto"` vs the final call without tools) and the
conversation so far, it either raises or returns a reply message. -/
abbrev BackendFn := Bool → List Message → Except String ReplyMessage

/-- The Tavily search client as an injected oracle, indexed by how many
searches were already issued in this run, so that stubs can behave
differently on successive invocations. -/
abbrev TavilyFn := Nat → SearchRequest → Except String TavilyResult

/-- The system instruction of `check_text` (src/app/factchecker.py
lines 62–73), with the interpolated `datetime.utcnow().date()` passed in as
`today`; surrounding whitespace of the Python multi-line literal is
normalized. -/
def systemPrompt (today : String) : String :=
  "You are an expert fact-checker. 1. Use the search_web tool when you need to verify claims. 2. Evaluate multiple sources. 3. Give a verdict (TRUE, FALSE, UNVERIFIABLE). 4. Confidence (0.0-1.0). 5. Claim summary. 6. A brief Conclusion. 7. Evidence-based reasoning (Supporting and Counter Evidence). 7. Cite the sources. 8. Todays date is " ++ today ++ "."

/-- The user turn of `check_text` (src/app/factchecker.py line 77). -/
def userPrompt (text : String) : String :=
  "Fact-check this claim:\n\n\"" ++ text ++ "\""

/-- The final instruction demanding machine-parseable JSON
(src/app/factchecker.py lines 121–128). -/
def finalPrompt : String :=
  "Now summarize your findings in JSON with:\n- verdict: TRUE, FALSE or UNVERIFIABLE\n- confidence: number 0.0-1.0\n- claim: the main claim being checked\n- conclusion: 1-2 sentences\n- reasoning: detailed explanation\n- evidence: \x7bsupporting: [], counter: [optional]\x7d\n- citations: [\x7btitle, url\x7d]"

/-- The seed conversation of `check_text` (src/app/factchecker.py
lines 61–79): one system turn and one user turn. -/
def initMessages (today text : String) : List Message :=
  [Message.system (systemPrompt today), Message.user (userPrompt text)]

/-- The `for tool_call in response_message.tool_calls:` body
(src/app/factchecker.py lines 94–108): for each call named `search_web`,
parse the arguments (a raised exception propagates to the top-level
handler), run `search_web`, and append the tool message; calls with any
other name are skipped without appending anything. `sc` counts the searches
issued so far (indexing the Tavily oracle). -/
def handleToolCalls (tav : TavilyFn) :
    List ToolCall → List Message → Nat → Except String (List Message × Nat)
  | [], msgs, sc => .ok (msgs, sc)
  | tc :: rest, msgs, sc =>
    if tc.name == "search_web" then
      match tc.queryArg with
      | .error e => .error e
      | .ok q =>
          let res := search_web (tav sc) q
          handleToolCalls tav rest (msgs ++ [Message.tool tc.id tc.name res]) (sc + 1)
    else handleToolCalls tav rest msgs sc

/-- The `while response_message.tool_calls:` loop of `check_text`
(src/app/factchecker.py lines 93–118). The source imposes no bound on the
number of rounds; `fuel` counts loop iterations of the embedding, and
`.ok none` reports a run that is still inside the loop after `fuel`
rounds (the Python code would simply keep looping). On exit the
conversation accumulated so far is returned. -/
def toolLoop (b : BackendFn) (tav : TavilyFn) :
    Nat → List Message → ReplyMessage → Nat → Except String (Option (List Message))
  | fuel, msgs, reply, sc =>
    if reply.toolCalls.isEmpty then .ok (some msgs)
    else
      match fuel with
      | 0 => .ok none
      | fuel' + 1 =>
        match handleToolCalls tav reply.toolCalls msgs sc with
        | .error e => .error e
        | .ok (msgs', sc') =>
          match b true msgs' with
          | .error e => .error e
          | .ok reply' => toolLoop b tav fuel' (msgs' ++ [Message.assistant reply']) reply' sc'

/-- The final phase of `check_text` (src/app/factchecker.py lines 120–149):
append the final instruction, issue one last backend call without tools,
parse its content as JSON, and build the validated `CheckResponse`. -/
def finalPhase (b : BackendFn) (msgs : List Message) : Except String CheckResponse :=
  match b false (msgs ++ [Message.user finalPrompt]) with
  | .error e => .error e
  | .ok finalReply =>
    match finalReply.parsed with
    | .error e => .error e
    | .ok fd => finalizeApp fd

/-- The body of the `try` block of `check_text` (src/app/factchecker.py
lines 60–149): seed the conversation, issue the first backend call, run the
tool-calling loop, then the final phase. `.ok none` propagates a run still
inside the unbounded loop after `fuel` rounds. -/
def check_text_body (b : BackendFn) (tav : TavilyFn) (fuel : Nat)
    (today text : String) : Except String (Option CheckResponse) :=
  match b true (initMessages today text) with
  | .error e => .error e
  | .ok reply0 =>
    match toolLoop b tav fuel (initMessages today text ++ [Message.assistant reply0]) reply0 0 with
    | .error e => .error e
    | .ok none => .ok none
    | .ok (some msgs) =>
      match finalPhase b msgs with
      | .error e => .error e
      | .ok r => .ok (some r)

/-- `FactChecker.check_text` (src/app/factchecker.py lines 58–161): the
`try` body wrapped in the catch-all `except` clause that converts any
exception into the ERROR record. `none` marks a run that is still inside
the unbounded tool-calling loop after `fuel` rounds and therefore has not
returned. -/
def check_text (b : BackendFn) (tav : TavilyFn) (fuel : Nat)
    (today text : String) : Option CheckResponse :=
  match check_text_body b tav fuel today text with
  | .ok none => none
  | .ok (some r) => some r
  | .error e => some (errorResponse e)

/-- Python `str.strip()`: drop leading and trailing whitespace characters.
Defined on the character list so that it evaluates by kernel reduction. -/
def pyStrip (s : String) : String :=
  ⟨((s.data.dropWhile Char.isWhitespace).reverse.dropWhile Char.isWhitespace).reverse⟩

/-- `FactChecker.check_image` (src/app/factchecker.py lines 269–307).
The vision extraction (`extract_text_from_image`, an external OpenAI call)
is injected as its outcome `extracted`: the extracted text or a raised
exception. -/
def check_image (extracted : Except String String) (b : BackendFn)
    (tav : TavilyFn) (fuel : Nat) (today : String) : Option CheckResponse :=
  match extracted with
  | .error e => some
      { verdict := "ERROR", confidence := 0, claim := ""
        conclusion := "Error processing image: " ++ e
        evidence := { supporting := [], counter := [] }, sources := [] }
  | .ok t =>
    if pyStrip t = "" then some
      { verdict := "UNVERIFIABLE", confidence := 0, claim := ""
        conclusion := "No text found in the image to fact-check."
        evidence := { supporting := [], counter := [] }, sources := [] }
    else check_text b tav fuel today t

/-- `FactChecker.check_pdf` (src/app/factchecker.py lines 309–347), with the
PyPDF2 page-text extraction injected as its outcome `extracted`. -/
def check_pdf (extracted : Except String String) (b : BackendFn)
    (tav : TavilyFn) (fuel : Nat) (today : String) : Option CheckResponse :=
  match extracted with
  | .error e => some
      { verdict := "ERROR", confidence := 0, claim := ""
        conclusion := "Error processing PDF: " ++ e
        evidence := { supporting := [], counter := [] }, sources := [] }
  | .ok t =>
    if pyStrip t = "" then some
      { verdict := "UNVERIFIABLE", confidence := 0, claim := ""
        conclusion := "No text found in the PDF to fact-check."
        evidence := { supporting := [], counter := [] }, sources := [] }
    else check_text b tav fuel today t

/-- One entry of `tavily_client.extract(urls=[url])["results"]`, read with
`.get("raw_content", "")` (src/app/factchecker.py line 378). -/
structure ExtractItem where
  raw_content? : Option String
deriving DecidableEq

/-- `FactChecker.check_url` (src/app/factchecker.py lines 349–406). The
Tavily extract call is injected as its outcome: a raised exception, or the
`results` list (`[]` covering both a falsy response and a missing or empty
`results` key, which take the same branch in the source). -/
def check_url (extractResp : Except String (List ExtractItem)) (b : BackendFn)
    (tav : TavilyFn) (fuel : Nat) (today url : String) : Option CheckResponse :=
  match extractResp with
  | .error e => some
      { verdict := "ERROR", confidence := 0, claim := ""
        conclusion := "Error processing URL: " ++ e
        evidence := { supporting := [], counter := [] }
        sources := [{ title := "Source URL", url := url }] }
  | .ok [] => some
      { verdict := "ERROR", confidence := 0, claim := ""
        conclusion := "Unable to fetch content from the provided URL."
        evidence := { supporting := [], counter := [] }
        sources := [{ title := "Source URL", url := url }] }
  | .ok (item :: _) =>
    if pyStrip (item.raw_content?.getD "") = "" then some
      { verdict := "UNVERIFIABLE", confidence := 0, claim := ""
        conclusion := "No text content found at the URL to fact-check."
        evidence := { supporting := [], counter := [] }
        sources := [{ title := "Source URL", url := url }] }
    else check_text b tav fuel today (item.raw_content?.getD "")

/-- The response model of the earlier orchestrator revision
(`src/factchecker.py` lines 172–179): verdict, confidence, summary,
reasoning and sources. -/
structure OldCheckResponse where
  verdict : String
  confidence : ℚ
  summary : String
  reasoning : String
  sources : List Source
deriving DecidableEq

/-- The final parsed reply as read by the earlier revision
(`src/factchecker.py` lines 163–177), fields read with
`result_data.get(key, default)`. -/
structure FinalDataOld where
  verdict? : Option String
  confidence? : Option ℚ
  summary? : Option String
  reasoning? : Option String
  sources? : Option (List RawSource)
deriving DecidableEq

/-- The record assembled by the earlier revision (`src/factchecker.py`
lines 163–179): the missing-verdict default there is `"ERROR"`, the missing
source title default is `"Unknown"`. -/
def finalizeOld (fd : FinalDataOld) : OldCheckResponse :=
  { verdict := fd.verdict?.getD "ERROR"
    confidence := fd.confidence?.getD 0
    summary := fd.summary?.getD "Unable to verify"
    reasoning := fd.reasoning?.getD ""
    sources := (fd.sources?.getD []).map
      (fun s => { title := s.title?.getD "Unknown", url := s.url?.getD "" }) }

/-- One row of the `fact_checks` table (src/app/database.py lines 17–34).
Timestamps are modeled as integers, ordered as the `DateTime` column is. -/
structure FactCheckRow where
  uid : String
  user_id : String
  verdict : String
  confidence : ℚ
  claim : String
  conclusion : String
  evidence : Evidence
  sources : List Source
  timestamp : Int
deriving DecidableEq

/-- The filter of `Database.delete_fact_check` (src/app/database.py
lines 199–202): `FactCheck.uid == uid` and `FactCheck.user_id == user_id`. -/
def rowMatches (uid user_id : String) (r : FactCheckRow) : Bool :=
  r.uid == uid && r.user_id == user_id

/-- `Database.delete_fact_check` (src/app/database.py lines 185–219): look up
the first row matching both the uid and the owning user; if none exists
return `false` and leave the table unchanged, otherwise delete that row and
return `true`. -/
def delete_fact_check (db : List FactCheckRow) (uid user_id : String) :
    List FactCheckRow × Bool :=
  match db.find? (rowMatches uid user_id) with
  | none => (db, false)
  | some _ => (db.eraseP (rowMatches uid user_id), true)

/-- Descending timestamp order used by `order_by(FactCheck.timestamp.desc())`
(src/app/database.py line 158). -/
def tsDesc (a b : FactCheckRow) : Prop := b.timestamp ≤ a.timestamp

instance : DecidableRel tsDesc := fun a b => inferInstanceAs (Decidable (b.timestamp ≤ a.timestamp))

instance : IsTotal FactCheckRow tsDesc := ⟨fun a b => le_total b.timestamp a.timestamp⟩

instance : IsTrans FactCheckRow tsDesc := ⟨fun _ _ _ hab hbc => le_trans hbc hab⟩

/-- `Database.get_fact_checks` (src/app/database.py lines 140–177): filter by
`user_id`, filter by `verdict` only when the argument is neither `None` nor
blank after `strip()`, order by timestamp descending, and apply `.limit`
only when `limit` is truthy (`None` and `0` both skip it). The trailing
row-to-dict conversion (lines 163–175) renames `uid` to `_id` and copies
every other field unchanged, so rows are returned directly. -/
def get_fact_checks (db : List FactCheckRow) (user_id : String)
    (limit : Option Nat) (verdict : Option String) : List FactCheckRow :=
  let q1 := db.filter (fun r => r.user_id == user_id)
  let q2 := match verdict with
    | some v => if pyStrip v ≠ "" then q1.filter (fun r => r.verdict == v) else q1
    | none => q1
  let q3 := List.insertionSort tsDesc q2
  match limit with
  | some n => if n ≠ 0 then q3.take n else q3
  | none => q3

/-! ### Stub oracles and scenario data

Concrete backend / search-client behaviors used to exercise `check_text`
on specific runs. A backend stub distinguishes the successive calls of one
run by the length of the conversation, which grows by a fixed amount
between calls. -/

/-- A Tavily oracle for runs that never reach a search. -/
def tavUnused : TavilyFn := fun _ _ => .error "unused"

/-- A backend whose first reply requests no tool calls and whose final reply
parses to the given data. -/
def noToolsThenFD (fd : FinalData) : BackendFn :=
  fun _ msgs => if msgs.length == 2 then .ok ⟨[], .error "nc"⟩ else .ok ⟨[], .ok fd⟩

/-- A backend whose first reply requests exactly one tool call, whose second
reply requests none, and whose final reply parses to the given data. -/
def oneSearchBackend (tc : ToolCall) (fd : FinalData) : BackendFn :=
  fun _ msgs =>
    if msgs.length == 2 then .ok ⟨[tc], .error "nc"⟩
    else if msgs.length == 4 then .ok ⟨[], .error "nc"⟩
    else .ok ⟨[], .ok fd⟩

/-- The reply of the stub backend that always requests one `search_web`
call with arguments `{"query": "q"}`. -/
def alwaysToolReply : ReplyMessage :=
  ⟨[⟨"call_1", "search_web", .ok (some "q")⟩], .error "nc"⟩

/-- The stub backend of the regression scenario: every chat call, whatever
the conversation, answers with one `search_web` tool call. -/
def alwaysToolBackend : BackendFn := fun _ _ => .ok alwaysToolReply

/-- A backend whose final reply never parses as JSON. -/
def constBadParse (e : String) : BackendFn := fun _ _ => .ok ⟨[], .error e⟩

/-- A final parsed reply with every field absent. -/
def emptyFD : FinalData := ⟨none, none, none, none, none, none, none⟩

/-- A well-formed final parsed reply with verdict TRUE. -/
def trueFD : FinalData :=
  ⟨some "TRUE", some 1, some "claim", some "ok", some ⟨[], []⟩, some [], none⟩

/-- A final parsed reply whose verdict is outside the closed set and whose
confidence is out of range: pydantic construction from it fails. -/
def badFD : FinalData := ⟨some "MAYBE", some 7, none, none, none, none, none⟩

/-- The final parsed reply of the Eiffel-Tower scenario run. -/
def eiffelFD : FinalData :=
  ⟨some "FALSE", some (mkRat 19 20), some "The Eiffel Tower is in Berlin.",
   some "The Eiffel Tower is in Paris, not Berlin.", some ⟨["Paris"], []⟩,
   some [⟨some "Wikipedia", some "https://en.wikipedia.org/wiki/Eiffel_Tower"⟩], none⟩

/-- A well-formed final parsed reply with verdict TRUE and confidence 9/10. -/
def confidentTrueFD : FinalData :=
  ⟨some "TRUE", some (mkRat 9 10), some "claim", some "ok", some ⟨[], []⟩, some [], none⟩

/-- The record `check_image` returns for empty extracted text
(src/app/factchecker.py lines 284–292). -/
def noTextImageRec : CheckResponse :=
  ⟨"UNVERIFIABLE", 0, "", "No text found in the image to fact-check.", ⟨[], []⟩, []⟩

/-- The record `check_pdf` returns for empty extracted text
(src/app/factchecker.py lines 324–332). -/
def noTextPdfRec : CheckResponse :=
  ⟨"UNVERIFIABLE", 0, "", "No text found in the PDF to fact-check.", ⟨[], []⟩, []⟩

/-- The record `check_url` returns for empty extracted content
(src/app/factchecker.py lines 381–389): note the non-empty sources list. -/
def noTextUrlRec (url : String) : CheckResponse :=
  ⟨"UNVERIFIABLE", 0, "", "No text content found at the URL to fact-check.", ⟨[], []⟩,
   [⟨"Source URL", url⟩]⟩

/-- A one-row table owned by user `u`. -/
def row0 : FactCheckRow := ⟨"id1", "u", "TRUE", 1, "c", "ok", ⟨[], []⟩, [], 0⟩

/-! ### Helper lemmas -/

/-- The `rowMatches` filter in propositional form. -/
theorem rowMatches_iff (uid user : String) (r : FactCheckRow) :
    rowMatches uid user r = true ↔ r.uid = uid ∧ r.user_id = user := by
  simp [rowMatches]

/-- A reply without tool calls exits the `while` loop at once, for any fuel. -/
theorem toolLoop_no_calls (b : BackendFn) (tav : TavilyFn) (fuel : Nat)
    (msgs : List Message) (reply : ReplyMessage) (sc : Nat)
    (h : reply.toolCalls = []) :
    toolLoop b tav fuel msgs reply sc = .ok (some msgs) := by
  rw [toolLoop.eq_def]
  simp [h]

/-- Against the backend that requests a `search_web` call on every round,
the loop is still running after any number of rounds. -/
theorem toolLoop_alwaysTool (tav : TavilyFn) :
    ∀ (fuel : Nat) (msgs : List Message) (sc : Nat),
      toolLoop alwaysToolBackend tav fuel msgs alwaysToolReply sc = .ok none := by
  intro fuel
  induction fuel with
  | zero => intro msgs sc; rfl
  | succ n ih => intro msgs sc; exact ih _ _

/-- Validated records have an allowed verdict and an in-range confidence. -/
theorem validB_invariant (r : CheckResponse) (h : r.validB = true) :
    r.verdict ∈ allowedVerdicts ∧ 0 ≤ r.confidence ∧ r.confidence ≤ 1 := by
  unfold CheckResponse.validB at h
  simp only [Bool.and_eq_true, Bool.or_eq_true, beq_iff_eq, decide_eq_true_eq] at h
  obtain ⟨⟨hv, h0⟩, h1⟩ := h
  refine ⟨?_, h0, h1⟩
  unfold allowedVerdicts
  rcases hv with ⟨⟨h | h⟩ | h⟩ | h <;> simp [h]

/-- `finalizeApp` only returns records that passed pydantic validation. -/
theorem finalizeApp_ok (fd : FinalData) (r : CheckResponse)
    (h : finalizeApp fd = .ok r) : r.validB = true := by
  by_cases hb : (buildResponse fd).validB
  · rw [finalizeApp, if_pos hb] at h
    injection h with h
    exact h ▸ hb
  · rw [finalizeApp, if_neg hb] at h
    exact Except.noConfusion h

/-- A record returned by the final phase comes from `finalizeApp`. -/
theorem finalPhase_ok (b : BackendFn) (msgs : List Message) (r : CheckResponse)
    (h : finalPhase b msgs = .ok r) : ∃ fd, finalizeApp fd = .ok r := by
  unfold finalPhase at h
  cases hb : b false (msgs ++ [Message.user finalPrompt]) with
  | error e => simp only [hb] at h; exact Except.noConfusion h
  | ok fr =>
    simp only [hb] at h
    cases hp : fr.parsed with
    | error e => simp only [hp] at h; exact Except.noConfusion h
    | ok fd => simp only [hp] at h; exact ⟨fd, h⟩

/-- A record returned by the `try` body comes from `finalizeApp`. -/
theorem check_text_body_ok (b : BackendFn) (tav : TavilyFn) (fuel : Nat)
    (today text : String) (r : CheckResponse)
    (h : check_text_body b tav fuel today text = .ok (some r)) :
    ∃ fd, finalizeApp fd = .ok r := by
  unfold check_text_body at h
  cases hb : b true (initMessages today text) with
  | error e => simp only [hb] at h; exact Except.noConfusion h
  | ok reply0 =>
    simp only [hb] at h
    cases hl : toolLoop b tav fuel
        (initMessages today text ++ [Message.assistant reply0]) reply0 0 with
    | error e => simp only [hl] at h; exact Except.noConfusion h
    | ok o =>
      simp only [hl] at h
      cases o with
      | none => simp at h
      | some msgs =>
        cases hf : finalPhase b msgs with
        | error e => simp only [hf] at h; exact Except.noConfusion h
        | ok r0 =>
          simp only [hf, Except.ok.injEq, Option.some.injEq] at h
          exact h ▸ finalPhase_ok b msgs r0 hf

/-- The catch-all record satisfies the verdict and confidence invariant. -/
theorem errorResponse_invariant (e : String) :
    (errorResponse e).verdict ∈ allowedVerdicts ∧
    0 ≤ (errorResponse e).confidence ∧ (errorResponse e).confidence ≤ 1 := by
  refine ⟨by simp [errorResponse, allowedVerdicts], by simp [errorResponse], ?_⟩
  simp [errorResponse]

/-- A backend whose very first chat call raises yields the catch-all record. -/
theorem check_text_backendError (e : String) (tav : TavilyFn) (fuel : Nat)
    (today text : String) :
    check_text (fun _ _ => Except.error e) tav fuel today text
      = some (errorResponse e) := rfl

/-- A run against `noToolsThenFD fd`: the first reply requests no tools, the
final reply parses to `fd`, and the validated record built from `fd` is
returned. -/
theorem check_text_noTools (fd : FinalData) (tav : TavilyFn) (fuel : Nat)
    (today text : String) (hfd : (buildResponse fd).validB = true) :
    check_text (noToolsThenFD fd) tav fuel today text = some (buildResponse fd) := by
  unfold check_text check_text_body
  have h0 : noToolsThenFD fd true (initMessages today text)
      = .ok ⟨[], Except.error "nc"⟩ := rfl
  simp only [h0]
  rw [toolLoop_no_calls _ _ _ _ _ _ rfl]
  have h1 : finalPhase (noToolsThenFD fd)
      (initMessages today text ++ [Message.assistant ⟨[], Except.error "nc"⟩])
      = .ok (buildResponse fd) := by
    unfold finalPhase
    have h2 : noToolsThenFD fd false
        (initMessages today text ++ [Message.assistant ⟨[], Except.error "nc"⟩]
          ++ [Message.user finalPrompt]) = .ok ⟨[], Except.ok fd⟩ := rfl
    simp only [h2]
    rw [finalizeApp, if_pos hfd]
  simp only [h1]

/-! ### The checked properties -/

/-- C1: for every non-empty input text and every behavior of the backend and
search oracles, whenever `check_text` returns a record, its verdict is one of
the four enumerated values and its confidence lies in [0, 1] — including when
the backend's final reply carries an out-of-range confidence or a verdict
string outside the closed set, in which case pydantic validation fails and
the catch-all handler returns the ERROR record with confidence 0. -/
theorem C1_check_text_invariant (b : BackendFn) (tav : TavilyFn) (fuel : Nat)
    (today text : String) (r : CheckResponse) (hne : text ≠ "")
    (h : check_text b tav fuel today text = some r) :
    r.verdict ∈ allowedVerdicts ∧ 0 ≤ r.confidence ∧ r.confidence ≤ 1 := by
  unfold check_text at h
  cases hb : check_text_body b tav fuel today text with
  | error e =>
    simp only [hb] at h
    injection h with h
    exact h ▸ errorResponse_invariant e
  | ok o =>
    cases o with
    | none => simp only [hb] at h; exact Option.noConfusion h
    | some r0 =>
      simp only [hb, Option.some.injEq] at h
      obtain ⟨fd, hfd⟩ := check_text_body_ok b tav fuel today text r0 hb
      exact h ▸ validB_invariant r0 (finalizeApp_ok fd r0 hfd)

/-- C1 witness: the invariant instantiated on a concrete run whose backend
reports verdict "MAYBE" with confidence 7 — validation fails and the run
lands in the catch-all ERROR record. -/
theorem C1_check_text_invariant_witness :
    (errorResponse "1 validation error for CheckResponse").verdict ∈ allowedVerdicts ∧
    0 ≤ (errorResponse "1 validation error for CheckResponse").confidence ∧
    (errorResponse "1 validation error for CheckResponse").confidence ≤ 1 :=
  C1_check_text_invariant (noToolsThenFD badFD) tavUnused 1 "2024-01-01" "x"
    (errorResponse "1 validation error for CheckResponse") (by decide) (by decide)

/-- C2: the `while response_message.tool_calls:` loop of `check_text` has no
round cap. Against the stub backend that answers every chat call with one
`search_web` tool call, the run is still inside the loop after any number
`fuel` of rounds, for any behavior of the search client — `check_text` never
reaches the final phase and never returns (the claimed maximum round count
does not exist in the code). -/
theorem C2_no_round_cap (tav : TavilyFn) (fuel : Nat) (today text : String) :
    check_text alwaysToolBackend tav fuel today text = none := by
  unfold check_text check_text_body
  have h0 : alwaysToolBackend true (initMessages today text) = .ok alwaysToolReply := rfl
  simp only [h0, toolLoop_alwaysTool]

/-- C3 counterexample: a run in which the tool adapter raises a network fault
on its single invocation is not converted into an ERROR record: `search_web`
absorbs the fault, the conversation continues, and the backend's final FALSE
verdict is returned. -/
theorem C3_counterexample :
    check_text
        (oneSearchBackend ⟨"call_1", "search_web", .ok (some "Eiffel Tower location")⟩ eiffelFD)
        (fun _ _ => .error "connection error") 5 "2024-01-01"
        "The Eiffel Tower is in Berlin."
      = some (buildResponse eiffelFD) ∧
    (buildResponse eiffelFD).verdict = "FALSE" ∧
    (buildResponse eiffelFD).verdict ≠ "ERROR" := by decide

/-- C3 (amended): every fault raised by a backend chat call or by JSON
parsing of the final reply inside the `try` body of `check_text` is caught
and converted into the record with verdict ERROR, confidence 0 and
conclusion "Error during fact-checking: " followed by the fault description,
and `check_text` never propagates an exception; a tool-adapter fault,
however, is caught inside `search_web` and does not force an ERROR record. -/
theorem C3_fault_funnel (b : BackendFn) (tav tav2 : TavilyFn) (fuel fuel2 : Nat)
    (today text e eP : String)
    (hb : b true (initMessages today text) = .error e) :
    check_text b tav fuel today text = some (errorResponse e) ∧
    check_text (constBadParse eP) tav2 fuel2 today text = some (errorResponse eP) ∧
    (∀ (b3 : BackendFn) (tav3 : TavilyFn) (fuel3 : Nat) (t3 x3 e3 : String),
      check_text_body b3 tav3 fuel3 t3 x3 = .error e3 →
      check_text b3 tav3 fuel3 t3 x3 = some (errorResponse e3)) := by
  refine ⟨?_, ?_, ?_⟩
  · unfold check_text check_text_body
    simp only [hb]
  · unfold check_text check_text_body
    have h0 : constBadParse eP true (initMessages today text)
        = .ok ⟨[], Except.error eP⟩ := rfl
    simp only [h0]
    rw [toolLoop_no_calls _ _ _ _ _ _ rfl]
    have h1 : finalPhase (constBadParse eP)
        (initMessages today text ++ [Message.assistant ⟨[], Except.error eP⟩])
        = .error eP := rfl
    simp only [h1]
  · intro b3 tav3 fuel3 t3 x3 e3 h3
    unfold check_text
    simp only [h3]

/-- C3 witness: the funnel instantiated on a backend that raises
"backend down" on its first call. -/
theorem C3_fault_funnel_witness :
    check_text (fun _ _ => Except.error "backend down") tavUnused 1 "2024-01-01" "t"
      = some (errorResponse "backend down") :=
  (C3_fault_funnel (fun _ _ => Except.error "backend down") tavUnused tavUnused 1 1
    "2024-01-01" "t" "backend down" "x" rfl).1

/-- C4 counterexample: `check_text` on the whitespace-only claim body "   "
does not return UNVERIFIABLE without a backend call: the backend is consulted
and its final reply (here verdict TRUE) determines the record. -/
theorem C4_counterexample :
    check_text (noToolsThenFD trueFD) tavUnused 1 "2024-01-01" "   "
      = some (buildResponse trueFD) ∧
    (buildResponse trueFD).verdict = "TRUE" ∧
    (buildResponse trueFD).verdict ≠ "UNVERIFIABLE" := by decide

/-- C4 (amended): `check_text` does not special-case a whitespace-only claim
body. The backend conversation is issued as for any other text: a backend
that raises on its first call makes the result the catch-all ERROR record
(so a call is issued), and a backend that completes makes the result the
record built from its final reply — the UNVERIFIABLE empty-input degradation
exists only in the image/PDF/URL wrappers, and the HTTP route rejects empty
text before `check_text` is reached. -/
theorem C4_whitespace_not_special (tav : TavilyFn) (fuel : Nat) (today e : String)
    (fd : FinalData) (hfd : (buildResponse fd).validB = true) :
    check_text (fun _ _ => Except.error e) tav fuel today "   " = some (errorResponse e) ∧
    check_text (noToolsThenFD fd) tav fuel today "   " = some (buildResponse fd) :=
  ⟨check_text_backendError e tav fuel today "   ",
   check_text_noTools fd tav fuel today "   " hfd⟩

/-- C4 witness: the amended claim instantiated on the TRUE-reporting stub. -/
theorem C4_whitespace_not_special_witness :
    check_text (noToolsThenFD trueFD) tavUnused 2 "2024-01-01" "   "
      = some (buildResponse trueFD) :=
  (C4_whitespace_not_special tavUnused 2 "2024-01-01" "down" trueFD (by decide)).2

/-- C5 counterexample: for a URL whose extracted content is whitespace-only,
the conclusion text is the URL-specific "No text content found at the URL to
fact-check." (not the claimed uniform "No text found to fact-check.") and the
sources list is not empty — it carries the source URL. -/
theorem C5_counterexample :
    check_url (.ok [⟨some "   "⟩]) (noToolsThenFD trueFD) tavUnused 1 "2024-01-01"
        "https://example.com"
      = some (noTextUrlRec "https://example.com") ∧
    (noTextUrlRec "https://example.com").conclusion ≠ "No text found to fact-check." ∧
    (noTextUrlRec "https://example.com").sources ≠ [] := by decide

/-- C5 (amended): for an image, PDF, or URL input whose extracted claim body
is empty or whitespace-only, the record has verdict UNVERIFIABLE and
confidence 0.0, but the conclusion text is modality-specific ("No text found
in the image to fact-check.", "No text found in the PDF to fact-check.",
"No text content found at the URL to fact-check."), and the sources are
empty for image and PDF while the URL wrapper returns the single source URL. -/
theorem C5_empty_extraction (b : BackendFn) (tav : TavilyFn) (fuel : Nat)
    (today url t : String) (ht : pyStrip t = "") :
    check_image (.ok t) b tav fuel today = some noTextImageRec ∧
    check_pdf (.ok t) b tav fuel today = some noTextPdfRec ∧
    check_url (.ok [⟨some t⟩]) b tav fuel today url = some (noTextUrlRec url) := by
  refine ⟨?_, ?_, ?_⟩ <;>
    simp [check_image, check_pdf, check_url, ht,
      noTextImageRec, noTextPdfRec, noTextUrlRec]

/-- C5 witness: the amended claim instantiated at the whitespace body "   ". -/
theorem C5_empty_extraction_witness :
    check_image (.ok "   ") (noToolsThenFD trueFD) tavUnused 1 "2024-01-01"
      = some noTextImageRec :=
  (C5_empty_extraction (noToolsThenFD trueFD) tavUnused 1 "2024-01-01" "u" "   "
    (by decide)).1

/-- C6 counterexample: the search client raises a network fault on its single
invocation, yet the final record is the backend's TRUE verdict with
confidence 9/10 — not ERROR with confidence 0.0. -/
theorem C6_counterexample :
    check_text (oneSearchBackend ⟨"call_1", "search_web", .ok (some "q")⟩ confidentTrueFD)
        (fun _ _ => .error "network fault") 5 "2024-01-01" "claim text"
      = some (buildResponse confidentTrueFD) ∧
    (buildResponse confidentTrueFD).verdict ≠ "ERROR" ∧
    (buildResponse confidentTrueFD).confidence ≠ 0 := by decide

/-- C6 (amended): when the search client raises on its single invocation
during a `check_text` run, the fault is absorbed inside `search_web` — which
returns the empty, error-annotated result — the conversation continues, and
the final record is whatever the backend's final parseable reply yields; the
record is not forced to ERROR. -/
theorem C6_search_fault_absorbed (e today text q id : String) (fd : FinalData)
    (n : Nat) (hfd : (buildResponse fd).validB = true) :
    check_text (oneSearchBackend ⟨id, "search_web", .ok (some q)⟩ fd)
        (fun _ _ => .error e) (n + 1) today text = some (buildResponse fd) ∧
    search_web (fun _ => .error e) (some q) = ⟨[], "", some e⟩ := by
  constructor
  · unfold check_text check_text_body
    have h0 : oneSearchBackend ⟨id, "search_web", .ok (some q)⟩ fd true
        (initMessages today text)
        = .ok ⟨[⟨id, "search_web", .ok (some q)⟩], Except.error "nc"⟩ := rfl
    simp only [h0]
    rw [toolLoop.eq_def]
    have h1 : handleToolCalls (fun _ _ => Except.error e)
        [⟨id, "search_web", .ok (some q)⟩]
        (initMessages today text
          ++ [Message.assistant ⟨[⟨id, "search_web", .ok (some q)⟩], Except.error "nc"⟩]) 0
        = .ok (initMessages today text
            ++ [Message.assistant ⟨[⟨id, "search_web", .ok (some q)⟩], Except.error "nc"⟩]
            ++ [Message.tool id "search_web" ⟨[], "", some e⟩], 1) := rfl
    have h2 : oneSearchBackend ⟨id, "search_web", .ok (some q)⟩ fd true
        (initMessages today text
          ++ [Message.assistant ⟨[⟨id, "search_web", .ok (some q)⟩], Except.error "nc"⟩]
          ++ [Message.tool id "search_web" ⟨[], "", some e⟩])
        = .ok ⟨[], Except.error "nc"⟩ := rfl
    simp only [List.isEmpty_cons, Bool.false_eq_true, if_false, h1, h2]
    rw [toolLoop_no_calls _ _ _ _ _ _ rfl]
    have h3 : finalPhase (oneSearchBackend ⟨id, "search_web", .ok (some q)⟩ fd)
        (initMessages today text
          ++ [Message.assistant ⟨[⟨id, "search_web", .ok (some q)⟩], Except.error "nc"⟩]
          ++ [Message.tool id "search_web" ⟨[], "", some e⟩]
          ++ [Message.assistant ⟨[], Except.error "nc"⟩])
        = .ok (buildResponse fd) := by
      unfold finalPhase
      have h4 : oneSearchBackend ⟨id, "search_web", .ok (some q)⟩ fd false
          (initMessages today text
            ++ [Message.assistant ⟨[⟨id, "search_web", .ok (some q)⟩], Except.error "nc"⟩]
            ++ [Message.tool id "search_web" ⟨[], "", some e⟩]
            ++ [Message.assistant ⟨[], Except.error "nc"⟩]
            ++ [Message.user finalPrompt]) = .ok ⟨[], Except.ok fd⟩ := rfl
      simp only [h4]
      rw [finalizeApp, if_pos hfd]
    simp only [h3]
  · rfl

/-- C6 witness: the amended claim instantiated on the TRUE/0.9 scenario. -/
theorem C6_search_fault_absorbed_witness :
    check_text (oneSearchBackend ⟨"call_1", "search_web", .ok (some "q")⟩ confidentTrueFD)
        (fun _ _ => .error "network fault") 1 "2024-01-01" "claim text"
      = some (buildResponse confidentTrueFD) :=
  (C6_search_fault_absorbed "network fault" "2024-01-01" "claim text" "q" "call_1"
    confidentTrueFD 0 (by decide)).1

/-- C7 counterexample: a final reply that parses as JSON with every field
absent yields verdict UNVERIFIABLE, not ERROR, in the current orchestrator. -/
theorem C7_counterexample :
    check_text (noToolsThenFD emptyFD) tavUnused 1 "2024-01-01" "t"
      = some (buildResponse emptyFD) ∧
    (buildResponse emptyFD).verdict = "UNVERIFIABLE" ∧
    (buildResponse emptyFD).verdict ≠ "ERROR" := by decide

/-- C7 (amended): when the backend's final reply parses as JSON but every
field is absent, `check_text` in src/app/factchecker.py substitutes the
defaults confidence 0.0, claim "", conclusion "Unable to verify", empty
evidence and empty sources, but the missing-verdict default is UNVERIFIABLE,
not ERROR; the ERROR default for a missing verdict exists only in the
earlier revision src/factchecker.py. -/
theorem C7_missing_field_defaults (tav : TavilyFn) (fuel : Nat) (today text : String) :
    check_text (noToolsThenFD emptyFD) tav fuel today text
      = some ⟨"UNVERIFIABLE", 0, "", "Unable to verify", ⟨[], []⟩, []⟩ ∧
    finalizeOld ⟨none, none, none, none, none⟩
      = ⟨"ERROR", 0, "Unable to verify", "", []⟩ :=
  ⟨check_text_noTools emptyFD tav fuel today text (by decide), rfl⟩

/-- C8: `search_web` always returns a value. On an internal fault of the
search client it returns the empty result list, empty answer and the error
annotation; its result depends only on the client's answer to the single
request it issues, which carries `search_depth="advanced"` and
`max_results=5`. -/
theorem C8_search_web_total (client client2 : SearchRequest → Except String TavilyResult)
    (q : Option String) (e : String) (res : TavilyResult)
    (hsame : client ⟨q, "advanced", 5⟩ = client2 ⟨q, "advanced", 5⟩) :
    (client ⟨q, "advanced", 5⟩ = .error e → search_web client q = ⟨[], "", some e⟩) ∧
    (client ⟨q, "advanced", 5⟩ = .ok res →
      search_web client q = ⟨res.results?.getD [], res.answer?.getD "", none⟩) ∧
    search_web client q = search_web client2 q := by
  refine ⟨fun h => ?_, fun h => ?_, ?_⟩
  · unfold search_web; rw [h]
  · unfold search_web; rw [h]
  · unfold search_web; rw [hsame]

/-- C8 witness: the fault case instantiated on a client raising
"network unreachable". -/
theorem C8_search_web_total_witness :
    search_web (fun _ => Except.error "network unreachable") (some "x")
      = ⟨[], "", some "network unreachable"⟩ :=
  (C8_search_web_total (fun _ => Except.error "network unreachable")
    (fun _ => Except.error "network unreachable") (some "x") "network unreachable"
    ⟨none, none⟩ rfl).1 rfl

/-- C9: `delete_fact_check` returns `false` exactly when no record with the
given uid owned by the given user exists (and then deletes nothing), and
returns `true` exactly when such a record existed, in which case that record
is removed — under the primary-key uniqueness of uids, no record with the
uid remains — and every other record is kept. -/
theorem C9_delete_semantics (db : List FactCheckRow) (uid user : String)
    (hu : db.Pairwise (fun a b => a.uid ≠ b.uid)) :
    ((delete_fact_check db uid user).2 = false ↔
      ∀ r ∈ db, ¬(r.uid = uid ∧ r.user_id = user)) ∧
    ((delete_fact_check db uid user).2 = false →
      (delete_fact_check db uid user).1 = db) ∧
    ((delete_fact_check db uid user).2 = true →
      (∃ r ∈ db, r.uid = uid ∧ r.user_id = user) ∧
      (∀ x ∈ (delete_fact_check db uid user).1, x.uid ≠ uid) ∧
      (∀ x ∈ db, x.uid ≠ uid → x ∈ (delete_fact_check db uid user).1)) := by
  cases hf : db.find? (rowMatches uid user) with
  | none =>
    have hd : delete_fact_check db uid user = (db, false) := by
      unfold delete_fact_check; rw [hf]
    rw [List.find?_eq_none] at hf
    rw [hd]
    refine ⟨?_, fun _ => rfl, fun h => by simp at h⟩
    simp only [eq_self_iff_true, true_iff]
    intro r hr hmatch
    exact hf r hr ((rowMatches_iff uid user r).2 hmatch)
  | some r0 =>
    have hd : delete_fact_check db uid user
        = (db.eraseP (rowMatches uid user), true) := by
      unfold delete_fact_check; rw [hf]
    have hp : rowMatches uid user r0 = true := List.find?_some hf
    have hmem : r0 ∈ db := List.mem_of_find?_eq_some hf
    obtain ⟨hru, hruser⟩ := (rowMatches_iff uid user r0).1 hp
    rw [hd]
    refine ⟨?_, fun h => by simp at h, fun _ => ?_⟩
    · simp only [Bool.true_eq_false, false_iff, not_forall]
      refine ⟨r0, hmem, ?_⟩
      simp [hru, hruser]
    · obtain ⟨c, l₁, l₂, hl₁, hc, hdb, herase⟩ := List.exists_of_eraseP hmem hp
      obtain ⟨hcu, hcuser⟩ := (rowMatches_iff uid user c).1 hc
      refine ⟨⟨r0, hmem, hru, hruser⟩, ?_, ?_⟩
      · intro x hx
        simp only [herase] at hx
        rw [hdb, List.pairwise_append] at hu
        obtain ⟨hu1, hu2, hu12⟩ := hu
        rcases List.mem_append.1 hx with hx1 | hx2
        · intro hxe
          exact (hu12 x hx1 c (List.mem_cons_self c l₂)) (hxe.trans hcu.symm)
        · rw [List.pairwise_cons] at hu2
          intro hxe
          exact (hu2.1 x hx2) (hcu.trans hxe.symm)
      · intro x hxdb hxuid
        simp only [herase]
        rw [hdb] at hxdb
        rcases List.mem_append.1 hxdb with hx1 | hx2
        · exact List.mem_append.2 (Or.inl hx1)
        · rcases List.mem_cons.1 hx2 with hxc | hx2p
          · exact absurd (hxc ▸ hcu) hxuid
          · exact List.mem_append.2 (Or.inr hx2p)

/-- C9 witness: deleting a nonexistent uid leaves the one-row table
unchanged. -/
theorem C9_delete_semantics_witness :
    (delete_fact_check [row0] "zzz" "u").1 = [row0] :=
  (C9_delete_semantics [row0] "zzz" "u" (by simp)).2.1 (by decide)

/-- C10 counterexample: a limit of 0, although given, does not truncate the
result to 0 records: the `if limit:` truthiness test treats it as
"no limit". -/
theorem C10_counterexample :
    get_fact_checks [row0] "u" (some 0) none = [row0] ∧
    ¬((get_fact_checks [row0] "u" (some 0) none).length ≤ 0) := by decide

/-- C10 (amended): `get_fact_checks` treats a verdict filter that is None,
empty, or whitespace-only as no filter; a non-blank filter restricts results
to records whose verdict equals it exactly; results are always ordered by
timestamp descending; a nonzero limit truncates the ordered results to the
first `n`, while a limit of 0, like None, is treated as no limit by the
`if limit:` truthiness test. -/
theorem C10_filter_order_limit (db : List FactCheckRow) (u : String)
    (l : Option Nat) (v w : String) (n : Nat)
    (hv : pyStrip v = "") (hw : pyStrip w ≠ "") (hn : n ≠ 0) :
    get_fact_checks db u l (some v) = get_fact_checks db u l none ∧
    (∀ r, r ∈ get_fact_checks db u none (some w) ↔
      r ∈ db ∧ r.user_id = u ∧ r.verdict = w) ∧
    (∀ r, r ∈ get_fact_checks db u none none ↔ r ∈ db ∧ r.user_id = u) ∧
    List.Sorted tsDesc (get_fact_checks db u l (some w)) ∧
    List.Sorted tsDesc (get_fact_checks db u l none) ∧
    get_fact_checks db u (some n) (some w)
      = (get_fact_checks db u none (some w)).take n ∧
    get_fact_checks db u (some n) none = (get_fact_checks db u none none).take n ∧
    get_fact_checks db u (some 0) (some w) = get_fact_checks db u none (some w) ∧
    get_fact_checks db u (some 0) none = get_fact_checks db u none none := by
  have hsort : ∀ (q2 : List FactCheckRow) (lim : Option Nat),
      List.Sorted tsDesc (match lim with
        | some m => if m ≠ 0 then (List.insertionSort tsDesc q2).take m
            else List.insertionSort tsDesc q2
        | none => List.insertionSort tsDesc q2) := by
    intro q2 lim
    cases lim with
    | none => exact List.sorted_insertionSort tsDesc q2
    | some m =>
      dsimp only
      by_cases hm : m ≠ 0
      · rw [if_pos hm]
        exact List.Pairwise.sublist (List.take_sublist m _)
          (List.sorted_insertionSort tsDesc q2)
      · rw [if_neg hm]
        exact List.sorted_insertionSort tsDesc q2
  refine ⟨?_, ?_, ?_, ?_, ?_, ?_, ?_, ?_, ?_⟩
  · unfold get_fact_checks
    dsimp only
    rw [if_neg (by simp [hv])]
  · intro r
    unfold get_fact_checks
    dsimp only
    rw [if_pos hw]
    rw [List.Perm.mem_iff (List.perm_insertionSort _ _)]
    simp only [List.mem_filter, beq_iff_eq, and_assoc]
  · intro r
    unfold get_fact_checks
    dsimp only
    rw [List.Perm.mem_iff (List.perm_insertionSort _ _)]
    simp [List.mem_filter]
  · unfold get_fact_checks
    dsimp only
    rw [if_pos hw]
    exact hsort _ l
  · unfold get_fact_checks
    dsimp only
    exact hsort _ l
  · unfold get_fact_checks
    dsimp only
    rw [if_pos hw, if_pos hn]
  · unfold get_fact_checks
    dsimp only
    rw [if_pos hn]
  · unfold get_fact_checks
    dsimp only
    rw [if_pos hw, if_neg (by simp)]
  · unfold get_fact_checks
    dsimp only
    rw [if_neg (by simp)]

/-- C10 witness: a blank verdict filter on the one-row table returns the
same result as no filter. -/
theorem C10_filter_order_limit_witness :
    get_fact_checks [row0] "u" (some 2) (some "   ")
      = get_fact_checks [row0] "u" (some 2) none :=
  (C10_filter_order_limit [row0] "u" (some 2) "   " "TRUE" 2
    (by decide) (by decide) (by decide)).1

end FactFlow
